import Mathlib

/-!
Verification of the BFD daemon northbound configuration layer
(src/bfdd/bfdd_nb_config.c): a shallow embedding of the reconciler
callbacks (session create/destroy phase machines, profile and session
scalar-field callbacks) together with an explicit store modelling the
session registry, the per-session heap objects and the running
configuration map.  Engine collaborators that live outside the staged
sources (registry lookup, session allocation/free, registration) are
modelled from the specification and marked as such.
-/

/-- Address family of a parsed network address (AF_INET or AF_INET6). -/
inductive Family
  | ipv4
  | ipv6
deriving DecidableEq

/-- A parsed network address: family plus raw address bytes (the payload of
a sockaddr_any or of a parsed destination). -/
structure Addr where
  family : Family
  data : List Nat
deriving DecidableEq

/-- IN6_IS_ADDR_LINKLOCAL: first byte 0xfe and the top two bits of the
second byte equal to binary 10, that is fe80::/10. -/
def in6IsLinklocal (a : Addr) : Bool :=
  match a.data with
  | b0 :: b1 :: _ => decide (b0 = 0xfe ∧ b1 &&& 0xc0 = 0x80)
  | _ => false

/-- The attributes of a session configuration node that the callbacks read:
dest-addr (required), source-addr (optional), interface and vrf strings.
Addresses are carried already parsed; the string-to-address parsing
(strtosa, yang_dnode_get_prefix) is outside the staged sources. -/
structure SessionDnode where
  destAddr : Addr
  sourceAddr : Option Addr
  ifname : String
  vrf : String
deriving DecidableEq

/-- Canonical session key (struct bfd_key as produced by gen_bfd_key):
peer address, optional local address, multihop flag, optional interface
name and vrf name. -/
structure BfdKey where
  peer : Addr
  localAddr : Option Addr
  mhop : Bool
  ifname : Option String
  vrfname : String
deriving DecidableEq

/-- Family of a key, taken from its peer address (bfd_key.family). -/
def BfdKey.family (k : BfdKey) : Family := k.peer.family

/-- The parameter block shared by profiles and by a session's peer_profile
(struct bfd_profile fields). -/
structure BfdProfile where
  detection_multiplier : Nat
  min_tx : Nat
  min_rx : Nat
  min_echo_rx : Nat
  admin_shutdown : Bool
  passive : Bool
  echo_mode : Bool
  minimum_ttl : Nat
deriving DecidableEq

/-- The installed timers of a session (struct bfd_timers), read-only to the
configuration layer and compared against to detect no-ops. -/
structure BfdTimers where
  desired_min_tx : Nat
  required_min_rx : Nat
  required_min_echo : Nat
deriving DecidableEq

/-- A BFD session object (the fields of struct bfd_session this layer
touches).  The flag bits BFD_SESS_FLAG_CONFIG, BFD_SESS_FLAG_MH and
BFD_SESS_FLAG_IPV6 are modelled as booleans. -/
structure BfdSession where
  key : BfdKey
  flagConfig : Bool
  flagMH : Bool
  flagIPv6 : Bool
  refcount : Nat
  my_discr : Nat
  peer_profile : BfdProfile
  timers : BfdTimers
deriving DecidableEq

/-- Northbound callback results used by this file: NB_OK,
NB_ERR_VALIDATION (with the errmsg the callback writes, empty when the
callback writes none), NB_ERR_RESOURCE and NB_ERR_INCONSISTENCY. -/
inductive NbRes
  | ok
  | errValidation (msg : String)
  | errResource
  | errInconsistency
deriving DecidableEq

/-- Northbound event: NB_EV_VALIDATE, NB_EV_PREPARE, NB_EV_APPLY,
NB_EV_ABORT. -/
inductive NbEvent
  | validate
  | prepare
  | apply
  | abort
deriving DecidableEq

/-- The shared state the session callbacks act on: heap objects (session
id to session), the session registry keyed by canonical key, the running
configuration map (node id to session id) and the allocator counter. -/
structure Store where
  heap : List (Nat × BfdSession)
  registry : List (BfdKey × Nat)
  running : List (Nat × Nat)
  nextId : Nat
deriving DecidableEq

/-- Read a heap object. -/
def heapGet : List (Nat × BfdSession) → Nat → Option BfdSession
  | [], _ => none
  | (j, bs) :: rest, i => if j = i then some bs else heapGet rest i

/-- Overwrite a heap object in place (pointer-mutation model). -/
def heapSet : List (Nat × BfdSession) → Nat → BfdSession → List (Nat × BfdSession)
  | [], _, _ => []
  | (j, bs) :: rest, i, v =>
      if j = i then (j, v) :: heapSet rest i v else (j, bs) :: heapSet rest i v

/-- Drop the first heap entry with the given id. -/
def heapRemove : List (Nat × BfdSession) → Nat → List (Nat × BfdSession)
  | [], _ => []
  | (j, bs) :: rest, i => if j = i then rest else (j, bs) :: heapRemove rest i

/-- First registry entry for a key, if any. -/
def regLookup : List (BfdKey × Nat) → BfdKey → Option Nat
  | [], _ => none
  | (k, id) :: rest, bk => if k = bk then some id else regLookup rest bk

/-- Drop every registry entry pointing at the given session id. -/
def regRemoveId : List (BfdKey × Nat) → Nat → List (BfdKey × Nat)
  | [], _ => []
  | (k, id) :: rest, i =>
      if id = i then regRemoveId rest i else (k, id) :: regRemoveId rest i

/-- First running-configuration binding of a node, if any. -/
def runLookup : List (Nat × Nat) → Nat → Option Nat
  | [], _ => none
  | (n, id) :: rest, node => if n = node then some id else runLookup rest node

/-- Drop the first running-configuration binding of a node
(nb_running_unset_entry). -/
def runUnset : List (Nat × Nat) → Nat → List (Nat × Nat)
  | [], _ => []
  | (n, id) :: rest, node => if n = node then rest else (n, id) :: runUnset rest node

/-- Modelled from the spec: `bfd_key_lookup` (Session Registry, lookup(K)
returning the registered session for a canonical key, or nothing). -/
def bfd_key_lookup (st : Store) (bk : BfdKey) : Option Nat :=
  regLookup st.registry bk

/-- Modelled from the spec: `bfd_session_new` allocates a fresh session
object; all fields the claims observe start zeroed (my_discr = 0 means
unregistered, refcount and flags are set by the caller). -/
def bfd_session_new : BfdSession :=
  { key := { peer := { family := Family.ipv4, data := [] }, localAddr := none,
             mhop := false, ifname := none, vrfname := "" }
    flagConfig := false
    flagMH := false
    flagIPv6 := false
    refcount := 0
    my_discr := 0
    peer_profile := { detection_multiplier := 0, min_tx := 0, min_rx := 0,
                      min_echo_rx := 0, admin_shutdown := false, passive := false,
                      echo_mode := false, minimum_ttl := 0 }
    timers := { desired_min_tx := 0, required_min_rx := 0, required_min_echo := 0 } }

/-- Modelled from the spec: `bfd_session_free` (engine free(S), full
teardown): the object is removed from the heap and any registry entries
for it are dropped. -/
def bfd_session_free (st : Store) (id : Nat) : Store :=
  { st with heap := heapRemove st.heap id, registry := regRemoveId st.registry id }

/-- bfd_session_get_key: build the canonical key from a session node.
dest-addr is required, source-addr optional (absent when the node has
none), the interface sentinel "*" is normalized to absent, vrf is always
present; the external multihop flag completes the key (gen_bfd_key). -/
def bfd_session_get_key (mhop : Bool) (dnode : SessionDnode) : BfdKey :=
  { peer := dnode.destAddr
    localAddr := dnode.sourceAddr
    mhop := mhop
    ifname := if dnode.ifname = "*" then none else some dnode.ifname
    vrfname := dnode.vrf }

/-- struct session_iter: accumulator of the sibling enumeration. -/
structure SessionIter where
  count : Nat
  wildcard : Bool
deriving DecidableEq

/-- session_iter_cb applied along a list of sibling session nodes: each
node bumps the count, and a node whose interface is "*" sets the wildcard
flag (yang_dnode_iterate threading the iterator). -/
def session_iter_run : List SessionDnode → SessionIter → SessionIter
  | [], it => it
  | d :: rest, it =>
      session_iter_run rest
        { count := it.count + 1, wildcard := it.wildcard || decide (d.ifname = "*") }

/-- The xpath filter of the VALIDATE iteration: multi-hop siblings match on
source-addr, dest-addr and vrf; single-hop siblings match on dest-addr and
vrf. -/
def sessionMatches (mhop : Bool) (dnode d : SessionDnode) : Bool :=
  if mhop then
    decide (d.sourceAddr = dnode.sourceAddr ∧ d.destAddr = dnode.destAddr ∧ d.vrf = dnode.vrf)
  else
    decide (d.destAddr = dnode.destAddr ∧ d.vrf = dnode.vrf)

/-- The errmsg written when a link-local destination comes with the
wildcard interface. -/
def linklocalErrmsg : String :=
  "When using link-local you must specify an interface"

/-- The errmsg written when the same peer is configured with and without
an interface name. -/
def wildcardErrmsg : String :=
  "It is not allowed to configure the same peer with and without ifname"

/-- bfd_session_create, NB_EV_VALIDATE branch.  sessList holds the sibling
session nodes of the same hop type under the sessions container. -/
def bfd_session_create_validate (mhop : Bool) (dnode : SessionDnode)
    (sessList : List SessionDnode) : NbRes :=
  if dnode.destAddr.family = Family.ipv6 ∧ in6IsLinklocal dnode.destAddr = true
      ∧ dnode.ifname = "*" then
    NbRes.errValidation linklocalErrmsg
  else
    let iter := session_iter_run (sessList.filter (sessionMatches mhop dnode))
        { count := 0, wildcard := false }
    if iter.wildcard = true ∧ 1 < iter.count then
      NbRes.errValidation wildcardErrmsg
    else
      NbRes.ok

/-- bfd_session_create, NB_EV_PREPARE branch: adoption or allocation.
Returns the new store and the session id recorded in the change's
resource slot.  A dangling registry entry (no heap object) cannot arise
in a well-formed store; the model leaves the store unchanged there. -/
def bfd_session_create_prepare (mhop : Bool) (dnode : SessionDnode) (st : Store) :
    Store × Nat :=
  let bk := bfd_session_get_key mhop dnode
  match bfd_key_lookup st bk with
  | some id =>
      match heapGet st.heap id with
      | some bs =>
          ({ st with heap := heapSet st.heap id { bs with flagConfig := true, refcount := bs.refcount + 1 } }, id)
      | none => (st, id)
  | none =>
      let bs := { bfd_session_new with
                    key := bk
                    refcount := 1
                    flagConfig := true
                    flagMH := mhop
                    flagIPv6 := decide (bk.family = Family.ipv6) }
      ({ st with heap := (st.nextId, bs) :: st.heap, nextId := st.nextId + 1 },
       st.nextId)

/-- Modelled from the spec: `bs_registrate` (engine register(S)): assigns
the discriminator and inserts the session into the registry; returns
nothing when the engine refuses.  The oracle d is the discriminator the
engine would hand out, d = 0 modelling refusal. -/
def bs_registrate (d : Nat) (id : Nat) (bs : BfdSession) (st : Store) : Option Store :=
  if d = 0 then none
  else some { st with heap := heapSet st.heap id { bs with my_discr := d },
                      registry := (bs.key, id) :: st.registry }

/-- bfd_session_create, NB_EV_APPLY branch: registration is attempted
only when the resource session is freshly allocated (my_discr = 0);
failure yields NB_ERR_RESOURCE, success binds node to session in the
running configuration map (nb_running_set_entry).  The last component
counts the bs_registrate calls made. -/
def bfd_session_create_apply (node res d : Nat) (st : Store) : NbRes × Store × Nat :=
  match heapGet st.heap res with
  | none => (NbRes.errResource, st, 0)
  | some bs =>
      if bs.my_discr = 0 then
        match bs_registrate d res bs st with
        | none => (NbRes.errResource, st, 1)
        | some st1 => (NbRes.ok, { st1 with running := (node, res) :: st1.running }, 1)
      else
        (NbRes.ok, { st with running := (node, res) :: st.running }, 0)

/-- bfd_session_create, NB_EV_ABORT branch: free the resource session
when its refcount is at most 1, otherwise leave everything as it is. -/
def bfd_session_create_abort (res : Nat) (st : Store) : Store :=
  match heapGet st.heap res with
  | none => st
  | some bs => if bs.refcount ≤ 1 then bfd_session_free st res else st

/-- bfd_session_destroy, NB_EV_VALIDATE branch: the key must resolve to a
registered session. -/
def bfd_session_destroy_validate (mhop : Bool) (dnode : SessionDnode) (st : Store) :
    NbRes :=
  match bfd_key_lookup st (bfd_session_get_key mhop dnode) with
  | none => NbRes.errInconsistency
  | some _ => NbRes.ok

/-- bfd_session_destroy, NB_EV_APPLY branch: unbind the node; stop when
the CONFIG flag is already clear; otherwise clear it, decrement the
refcount and free the session only when the refcount reached zero. -/
def bfd_session_destroy_apply (node : Nat) (st : Store) : Store :=
  match runLookup st.running node with
  | none => st
  | some id =>
      let st1 := { st with running := runUnset st.running node }
      match heapGet st1.heap id with
      | none => st1
      | some bs =>
          if bs.flagConfig = false then st1
          else
            let bs2 := { bs with flagConfig := false, refcount := bs.refcount - 1 }
            let st2 := { st1 with heap := heapSet st1.heap id bs2 }
            if 0 < bs2.refcount then st2 else bfd_session_free st2 id

/-- A committed session create: PREPARE staging the resource, then APPLY
with the registration oracle d; phases in the order the transaction
engine dispatches them. -/
def createCommit (mhop : Bool) (dnode : SessionDnode) (node d : Nat) (st : Store) :
    NbRes × Store :=
  let p := bfd_session_create_prepare mhop dnode st
  let a := bfd_session_create_apply node p.2 d p.1
  (a.1, a.2.1)

/-- bfdd_bfd_profile_detection_multiplier_modify: APPLY sets the field and
notifies unconditionally.  The last component counts the
bfd_profile_update calls made. -/
def bfdd_bfd_profile_detection_multiplier_modify (event : NbEvent) (bp : BfdProfile)
    (v : Nat) : NbRes × BfdProfile × Nat :=
  if event ≠ NbEvent.apply then (NbRes.ok, bp, 0)
  else (NbRes.ok, { bp with detection_multiplier := v }, 1)

/-- bfdd_bfd_profile_desired_transmission_interval_modify: VALIDATE range
checks [10000, 60000000]; APPLY short-circuits on an equal value. -/
def bfdd_bfd_profile_desired_transmission_interval_modify (event : NbEvent)
    (bp : BfdProfile) (min_tx : Nat) : NbRes × BfdProfile × Nat :=
  match event with
  | NbEvent.validate =>
      if min_tx < 10000 ∨ 60000000 < min_tx then (NbRes.errValidation "", bp, 0)
      else (NbRes.ok, bp, 0)
  | NbEvent.prepare => (NbRes.ok, bp, 0)
  | NbEvent.apply =>
      if bp.min_tx = min_tx then (NbRes.ok, bp, 0)
      else (NbRes.ok, { bp with min_tx := min_tx }, 1)
  | NbEvent.abort => (NbRes.ok, bp, 0)

/-- bfdd_bfd_profile_required_receive_interval_modify. -/
def bfdd_bfd_profile_required_receive_interval_modify (event : NbEvent)
    (bp : BfdProfile) (min_rx : Nat) : NbRes × BfdProfile × Nat :=
  match event with
  | NbEvent.validate =>
      if min_rx < 10000 ∨ 60000000 < min_rx then (NbRes.errValidation "", bp, 0)
      else (NbRes.ok, bp, 0)
  | NbEvent.prepare => (NbRes.ok, bp, 0)
  | NbEvent.apply =>
      if bp.min_rx = min_rx then (NbRes.ok, bp, 0)
      else (NbRes.ok, { bp with min_rx := min_rx }, 1)
  | NbEvent.abort => (NbRes.ok, bp, 0)

/-- bfdd_bfd_profile_administrative_down_modify: APPLY only, with the
no-op short-circuit. -/
def bfdd_bfd_profile_administrative_down_modify (event : NbEvent) (bp : BfdProfile)
    (shutdown : Bool) : NbRes × BfdProfile × Nat :=
  if event ≠ NbEvent.apply then (NbRes.ok, bp, 0)
  else if bp.admin_shutdown = shutdown then (NbRes.ok, bp, 0)
  else (NbRes.ok, { bp with admin_shutdown := shutdown }, 1)

/-- bfdd_bfd_profile_passive_mode_modify. -/
def bfdd_bfd_profile_passive_mode_modify (event : NbEvent) (bp : BfdProfile)
    (passive : Bool) : NbRes × BfdProfile × Nat :=
  if event ≠ NbEvent.apply then (NbRes.ok, bp, 0)
  else if bp.passive = passive then (NbRes.ok, bp, 0)
  else (NbRes.ok, { bp with passive := passive }, 1)

/-- bfdd_bfd_profile_minimum_ttl_modify. -/
def bfdd_bfd_profile_minimum_ttl_modify (event : NbEvent) (bp : BfdProfile)
    (minimum_ttl : Nat) : NbRes × BfdProfile × Nat :=
  if event ≠ NbEvent.apply then (NbRes.ok, bp, 0)
  else if bp.minimum_ttl = minimum_ttl then (NbRes.ok, bp, 0)
  else (NbRes.ok, { bp with minimum_ttl := minimum_ttl }, 1)

/-- bfdd_bfd_profile_echo_mode_modify. -/
def bfdd_bfd_profile_echo_mode_modify (event : NbEvent) (bp : BfdProfile)
    (echo : Bool) : NbRes × BfdProfile × Nat :=
  if event ≠ NbEvent.apply then (NbRes.ok, bp, 0)
  else if bp.echo_mode = echo then (NbRes.ok, bp, 0)
  else (NbRes.ok, { bp with echo_mode := echo }, 1)

/-- bfdd_bfd_profile_desired_echo_transmission_interval_modify. -/
def bfdd_bfd_profile_desired_echo_transmission_interval_modify (event : NbEvent)
    (bp : BfdProfile) (min_rx : Nat) : NbRes × BfdProfile × Nat :=
  match event with
  | NbEvent.validate =>
      if min_rx < 10000 ∨ 60000000 < min_rx then (NbRes.errValidation "", bp, 0)
      else (NbRes.ok, bp, 0)
  | NbEvent.prepare => (NbRes.ok, bp, 0)
  | NbEvent.apply =>
      if bp.min_echo_rx = min_rx then (NbRes.ok, bp, 0)
      else (NbRes.ok, { bp with min_echo_rx := min_rx }, 1)
  | NbEvent.abort => (NbRes.ok, bp, 0)

/-- bfdd_bfd_sessions_single_hop_source_addr_modify: returns NB_OK for
every event and touches nothing (the store parameter makes the absence of
effects explicit). -/
def bfdd_bfd_sessions_single_hop_source_addr_modify (_event : NbEvent) (st : Store) :
    NbRes × Store :=
  (NbRes.ok, st)

/-- bfdd_bfd_sessions_single_hop_source_addr_destroy: likewise a pure
NB_OK. -/
def bfdd_bfd_sessions_single_hop_source_addr_destroy (_event : NbEvent) (st : Store) :
    NbRes × Store :=
  (NbRes.ok, st)

/-- bfdd_bfd_sessions_single_hop_detection_multiplier_modify: APPLY writes
peer_profile and calls bfd_session_apply unconditionally.  bs is the
session bound to the node (nb_running_get_entry); the last component
counts the bfd_session_apply calls made. -/
def bfdd_bfd_sessions_single_hop_detection_multiplier_modify (event : NbEvent)
    (bs : BfdSession) (v : Nat) : NbRes × BfdSession × Nat :=
  match event with
  | NbEvent.validate => (NbRes.ok, bs, 0)
  | NbEvent.prepare => (NbRes.ok, bs, 0)
  | NbEvent.apply =>
      (NbRes.ok, { bs with peer_profile := { bs.peer_profile with detection_multiplier := v } }, 1)
  | NbEvent.abort => (NbRes.ok, bs, 0)

/-- bfdd_bfd_sessions_single_hop_desired_transmission_interval_modify:
VALIDATE range checks; APPLY short-circuits against the installed
timers.desired_min_tx. -/
def bfdd_bfd_sessions_single_hop_desired_transmission_interval_modify (event : NbEvent)
    (bs : BfdSession) (tx_interval : Nat) : NbRes × BfdSession × Nat :=
  match event with
  | NbEvent.validate =>
      if tx_interval < 10000 ∨ 60000000 < tx_interval then (NbRes.errValidation "", bs, 0)
      else (NbRes.ok, bs, 0)
  | NbEvent.prepare => (NbRes.ok, bs, 0)
  | NbEvent.apply =>
      if tx_interval = bs.timers.desired_min_tx then (NbRes.ok, bs, 0)
      else (NbRes.ok, { bs with peer_profile := { bs.peer_profile with min_tx := tx_interval } }, 1)
  | NbEvent.abort => (NbRes.ok, bs, 0)

/-- bfdd_bfd_sessions_single_hop_required_receive_interval_modify. -/
def bfdd_bfd_sessions_single_hop_required_receive_interval_modify (event : NbEvent)
    (bs : BfdSession) (rx_interval : Nat) : NbRes × BfdSession × Nat :=
  match event with
  | NbEvent.validate =>
      if rx_interval < 10000 ∨ 60000000 < rx_interval then (NbRes.errValidation "", bs, 0)
      else (NbRes.ok, bs, 0)
  | NbEvent.prepare => (NbRes.ok, bs, 0)
  | NbEvent.apply =>
      if rx_interval = bs.timers.required_min_rx then (NbRes.ok, bs, 0)
      else (NbRes.ok, { bs with peer_profile := { bs.peer_profile with min_rx := rx_interval } }, 1)
  | NbEvent.abort => (NbRes.ok, bs, 0)

/-- bfdd_bfd_sessions_single_hop_administrative_down_modify: APPLY writes
peer_profile and calls bfd_session_apply unconditionally. -/
def bfdd_bfd_sessions_single_hop_administrative_down_modify (event : NbEvent)
    (bs : BfdSession) (shutdown : Bool) : NbRes × BfdSession × Nat :=
  match event with
  | NbEvent.validate => (NbRes.ok, bs, 0)
  | NbEvent.prepare => (NbRes.ok, bs, 0)
  | NbEvent.apply =>
      (NbRes.ok, { bs with peer_profile := { bs.peer_profile with admin_shutdown := shutdown } }, 1)
  | NbEvent.abort => (NbRes.ok, bs, 0)

/-- bfdd_bfd_sessions_single_hop_passive_mode_modify: APPLY writes
peer_profile and calls bfd_session_apply unconditionally. -/
def bfdd_bfd_sessions_single_hop_passive_mode_modify (event : NbEvent)
    (bs : BfdSession) (passive : Bool) : NbRes × BfdSession × Nat :=
  match event with
  | NbEvent.validate => (NbRes.ok, bs, 0)
  | NbEvent.prepare => (NbRes.ok, bs, 0)
  | NbEvent.apply =>
      (NbRes.ok, { bs with peer_profile := { bs.peer_profile with passive := passive } }, 1)
  | NbEvent.abort => (NbRes.ok, bs, 0)

/-- bfdd_bfd_sessions_single_hop_echo_mode_modify: APPLY writes
peer_profile and calls bfd_session_apply unconditionally. -/
def bfdd_bfd_sessions_single_hop_echo_mode_modify (event : NbEvent)
    (bs : BfdSession) (echo : Bool) : NbRes × BfdSession × Nat :=
  match event with
  | NbEvent.validate => (NbRes.ok, bs, 0)
  | NbEvent.prepare => (NbRes.ok, bs, 0)
  | NbEvent.apply =>
      (NbRes.ok, { bs with peer_profile := { bs.peer_profile with echo_mode := echo } }, 1)
  | NbEvent.abort => (NbRes.ok, bs, 0)

/-- bfdd_bfd_sessions_single_hop_desired_echo_transmission_interval_modify:
VALIDATE range checks; APPLY short-circuits against the installed
timers.required_min_echo. -/
def bfdd_bfd_sessions_single_hop_desired_echo_transmission_interval_modify
    (event : NbEvent) (bs : BfdSession) (echo_interval : Nat) :
    NbRes × BfdSession × Nat :=
  match event with
  | NbEvent.validate =>
      if echo_interval < 10000 ∨ 60000000 < echo_interval then (NbRes.errValidation "", bs, 0)
      else (NbRes.ok, bs, 0)
  | NbEvent.prepare => (NbRes.ok, bs, 0)
  | NbEvent.apply =>
      if echo_interval = bs.timers.required_min_echo then (NbRes.ok, bs, 0)
      else (NbRes.ok, { bs with peer_profile := { bs.peer_profile with min_echo_rx := echo_interval } }, 1)
  | NbEvent.abort => (NbRes.ok, bs, 0)

/-- Concrete IPv4 peer address 10.0.0.1. -/
def addr4 : Addr := { family := Family.ipv4, data := [10, 0, 0, 1] }

/-- Concrete IPv6 link-local peer address fe80::1. -/
def addr6ll : Addr :=
  { family := Family.ipv6
    data := [0xfe, 0x80, 0, 0, 0, 0, 0, 0, 0, 0, 0, 0, 0, 0, 0, 1] }

/-- Session node for peer 10.0.0.1 with the wildcard interface. -/
def dnodeWild : SessionDnode :=
  { destAddr := addr4, sourceAddr := none, ifname := "*", vrf := "default" }

/-- Session node for peer 10.0.0.1 on interface eth0. -/
def dnodeEth : SessionDnode :=
  { destAddr := addr4, sourceAddr := none, ifname := "eth0", vrf := "default" }

/-- Session node for link-local peer fe80::1 with the wildcard interface. -/
def dnodeLinklocalWild : SessionDnode :=
  { destAddr := addr6ll, sourceAddr := none, ifname := "*", vrf := "default" }

/-- Session node for link-local peer fe80::1 on interface eth0. -/
def dnodeLinklocalEth : SessionDnode :=
  { destAddr := addr6ll, sourceAddr := none, ifname := "eth0", vrf := "default" }

/-- The canonical key of dnodeWild as a single-hop session. -/
def key0 : BfdKey := bfd_session_get_key false dnodeWild

/-- An engine-owned session for key0: registered (discriminator 7), one
co-owner, CONFIG flag clear. -/
def sess0 : BfdSession :=
  { bfd_session_new with key := key0, refcount := 1, my_discr := 7 }

/-- A store holding only the engine-owned sess0, registered under key0. -/
def store0 : Store :=
  { heap := [(0, sess0)], registry := [(key0, 0)], running := [], nextId := 1 }

/-- The empty store. -/
def storeEmpty : Store := { heap := [], registry := [], running := [], nextId := 0 }

/-- A sample profile used by the concrete counterexamples. -/
def profileSample : BfdProfile :=
  { detection_multiplier := 3, min_tx := 300000, min_rx := 300000,
    min_echo_rx := 50000, admin_shutdown := false, passive := false,
    echo_mode := false, minimum_ttl := 254 }

/-- A sample session whose installed timers and peer_profile agree with the
values the counterexample re-submits. -/
def sessSample : BfdSession :=
  { bfd_session_new with
      timers := { desired_min_tx := 300000, required_min_rx := 300000,
                  required_min_echo := 50000 } }

/-- A freshly allocated CONFIG session for key0, unregistered
(my_discr = 0), as PREPARE stages it. -/
def sessFresh : BfdSession :=
  { bfd_session_new with key := key0, refcount := 1, flagConfig := true }

/-- A store where sessFresh has been staged on the heap but not yet
registered. -/
def storeFresh : Store :=
  { heap := [(0, sessFresh)], registry := [], running := [], nextId := 1 }

/-- Updating a present heap object makes its id read back the new value. -/
theorem heapGet_heapSet_self (h : List (Nat × BfdSession)) (i : Nat)
    (v bs : BfdSession) (hg : heapGet h i = some bs) :
    heapGet (heapSet h i v) i = some v := by
  induction h with
  | nil => simp [heapGet] at hg
  | cons p rest ih =>
      obtain ⟨j, b⟩ := p
      by_cases hj : j = i
      · simp [heapGet, heapSet, hj]
      · simp [heapGet, hj] at hg
        simp [heapGet, heapSet, hj]
        exact ih hg

/-- Updating one heap object leaves every other id unchanged. -/
theorem heapGet_heapSet_ne (h : List (Nat × BfdSession)) (i j : Nat)
    (v : BfdSession) (hne : j ≠ i) :
    heapGet (heapSet h i v) j = heapGet h j := by
  induction h with
  | nil => simp [heapSet]
  | cons p rest ih =>
      obtain ⟨m, b⟩ := p
      by_cases hm : m = i
      · subst hm
        have hmj : m ≠ j := fun hh => hne hh.symm
        simp [heapSet, heapGet, hmj, ih]
      · simp [heapSet, heapGet, hm, ih]

/-- In-place update does not change the number of heap objects. -/
theorem heapSet_length (h : List (Nat × BfdSession)) (i : Nat) (v : BfdSession) :
    (heapSet h i v).length = h.length := by
  induction h with
  | nil => simp [heapSet]
  | cons p rest ih =>
      obtain ⟨m, b⟩ := p
      by_cases hm : m = i <;> simp [heapSet, hm, ih]

/-- Removing an id no registry entry points at leaves the registry alone. -/
theorem regRemoveId_of_absent (reg : List (BfdKey × Nat)) (i : Nat)
    (hn : ∀ q ∈ reg, q.2 ≠ i) : regRemoveId reg i = reg := by
  induction reg with
  | nil => simp [regRemoveId]
  | cons q rest ih =>
      obtain ⟨k, id⟩ := q
      have h1 : id ≠ i := hn (k, id) (List.mem_cons_self _ _)
      simp [regRemoveId, h1]
      exact ih (fun p hp => hn p (List.mem_cons_of_mem _ hp))

/-- The sibling iteration counts every node it visits. -/
theorem session_iter_run_count (l : List SessionDnode) (it : SessionIter) :
    (session_iter_run l it).count = it.count + l.length := by
  induction l generalizing it with
  | nil => simp [session_iter_run]
  | cons d rest ih =>
      simp [session_iter_run, ih]
      omega

/-- The sibling iteration flags a wildcard exactly when some visited node
has interface "*". -/
theorem session_iter_run_wildcard (l : List SessionDnode) (it : SessionIter) :
    (session_iter_run l it).wildcard
      = (it.wildcard || l.any (fun d => decide (d.ifname = "*"))) := by
  induction l generalizing it with
  | nil => simp [session_iter_run]
  | cons d rest ih =>
      simp [session_iter_run, ih, List.any_cons]
      cases it.wildcard <;> simp [Bool.or_assoc]

/-- C10: the single-hop source-addr modify and destroy callbacks return
NB_OK at every phase and leave the entire store untouched: no session,
profile, registry entry or running-configuration binding is read or
mutated and no engine function is called. -/
theorem source_addr_callbacks_noop (e : NbEvent) (st : Store) :
    bfdd_bfd_sessions_single_hop_source_addr_modify e st = (NbRes.ok, st)
  ∧ bfdd_bfd_sessions_single_hop_source_addr_destroy e st = (NbRes.ok, st) :=
  ⟨rfl, rfl⟩

/-- C6: the six interval modify callbacks (profile and single-hop session
desired-transmission, required-receive and desired-echo-transmission
intervals) reject at VALIDATE exactly when the value is outside
[10000, 60000000], and the boundary values 10000 and 60000000 pass. -/
theorem interval_range_validation_spec (bp : BfdProfile) (bs : BfdSession) (v : Nat) :
    ((bfdd_bfd_profile_desired_transmission_interval_modify NbEvent.validate bp v).1
      = if v < 10000 ∨ 60000000 < v then NbRes.errValidation "" else NbRes.ok)
  ∧ ((bfdd_bfd_profile_required_receive_interval_modify NbEvent.validate bp v).1
      = if v < 10000 ∨ 60000000 < v then NbRes.errValidation "" else NbRes.ok)
  ∧ ((bfdd_bfd_profile_desired_echo_transmission_interval_modify NbEvent.validate bp v).1
      = if v < 10000 ∨ 60000000 < v then NbRes.errValidation "" else NbRes.ok)
  ∧ ((bfdd_bfd_sessions_single_hop_desired_transmission_interval_modify NbEvent.validate bs v).1
      = if v < 10000 ∨ 60000000 < v then NbRes.errValidation "" else NbRes.ok)
  ∧ ((bfdd_bfd_sessions_single_hop_required_receive_interval_modify NbEvent.validate bs v).1
      = if v < 10000 ∨ 60000000 < v then NbRes.errValidation "" else NbRes.ok)
  ∧ ((bfdd_bfd_sessions_single_hop_desired_echo_transmission_interval_modify NbEvent.validate bs v).1
      = if v < 10000 ∨ 60000000 < v then NbRes.errValidation "" else NbRes.ok)
  ∧ (bfdd_bfd_profile_desired_transmission_interval_modify NbEvent.validate bp 10000).1 = NbRes.ok
  ∧ (bfdd_bfd_profile_desired_transmission_interval_modify NbEvent.validate bp 60000000).1 = NbRes.ok
  ∧ (bfdd_bfd_sessions_single_hop_desired_transmission_interval_modify NbEvent.validate bs 10000).1 = NbRes.ok
  ∧ (bfdd_bfd_sessions_single_hop_desired_transmission_interval_modify NbEvent.validate bs 60000000).1 = NbRes.ok := by
  refine ⟨?_, ?_, ?_, ?_, ?_, ?_, ?_, ?_, ?_, ?_⟩ <;>
    simp [bfdd_bfd_profile_desired_transmission_interval_modify,
          bfdd_bfd_profile_required_receive_interval_modify,
          bfdd_bfd_profile_desired_echo_transmission_interval_modify,
          bfdd_bfd_sessions_single_hop_desired_transmission_interval_modify,
          bfdd_bfd_sessions_single_hop_required_receive_interval_modify,
          bfdd_bfd_sessions_single_hop_desired_echo_transmission_interval_modify] <;>
    split <;> simp_all

/-- C4 counterexample: with the profile's detection-multiplier already 3,
re-submitting 3 at APPLY still invokes bfd_profile_update once, so the
claimed no-op short-circuit does not hold for this setter. -/
theorem profile_detection_multiplier_noop_not_shortcircuited :
    profileSample.detection_multiplier = 3
  ∧ (bfdd_bfd_profile_detection_multiplier_modify NbEvent.apply profileSample 3).2.2 = 1 :=
  ⟨rfl, rfl⟩

/-- C4 (amended): every profile scalar setter except detection-multiplier
short-circuits at APPLY when the new value equals the current field value
(success, profile unchanged, no profile_update call) and otherwise updates
the field and calls profile_update exactly once; the detection-multiplier
setter updates the field and calls profile_update unconditionally. -/
theorem profile_scalar_noop_spec (bp : BfdProfile) (n : Nat) (b : Bool) :
    (bfdd_bfd_profile_desired_transmission_interval_modify NbEvent.apply bp n
      = if bp.min_tx = n then (NbRes.ok, bp, 0) else (NbRes.ok, { bp with min_tx := n }, 1))
  ∧ (bfdd_bfd_profile_required_receive_interval_modify NbEvent.apply bp n
      = if bp.min_rx = n then (NbRes.ok, bp, 0) else (NbRes.ok, { bp with min_rx := n }, 1))
  ∧ (bfdd_bfd_profile_desired_echo_transmission_interval_modify NbEvent.apply bp n
      = if bp.min_echo_rx = n then (NbRes.ok, bp, 0) else (NbRes.ok, { bp with min_echo_rx := n }, 1))
  ∧ (bfdd_bfd_profile_minimum_ttl_modify NbEvent.apply bp n
      = if bp.minimum_ttl = n then (NbRes.ok, bp, 0) else (NbRes.ok, { bp with minimum_ttl := n }, 1))
  ∧ (bfdd_bfd_profile_administrative_down_modify NbEvent.apply bp b
      = if bp.admin_shutdown = b then (NbRes.ok, bp, 0) else (NbRes.ok, { bp with admin_shutdown := b }, 1))
  ∧ (bfdd_bfd_profile_passive_mode_modify NbEvent.apply bp b
      = if bp.passive = b then (NbRes.ok, bp, 0) else (NbRes.ok, { bp with passive := b }, 1))
  ∧ (bfdd_bfd_profile_echo_mode_modify NbEvent.apply bp b
      = if bp.echo_mode = b then (NbRes.ok, bp, 0) else (NbRes.ok, { bp with echo_mode := b }, 1))
  ∧ (bfdd_bfd_profile_detection_multiplier_modify NbEvent.apply bp n
      = (NbRes.ok, { bp with detection_multiplier := n }, 1)) := by
  refine ⟨?_, ?_, ?_, ?_, ?_, ?_, ?_, ?_⟩ <;>
    simp [bfdd_bfd_profile_desired_transmission_interval_modify,
          bfdd_bfd_profile_required_receive_interval_modify,
          bfdd_bfd_profile_desired_echo_transmission_interval_modify,
          bfdd_bfd_profile_minimum_ttl_modify,
          bfdd_bfd_profile_administrative_down_modify,
          bfdd_bfd_profile_passive_mode_modify,
          bfdd_bfd_profile_echo_mode_modify,
          bfdd_bfd_profile_detection_multiplier_modify]

/-- C5 counterexample: with the session's peer_profile.admin_shutdown
already false (and every installed value equal to the re-submitted one),
modifying administrative-down to false at APPLY still calls
bfd_session_apply once, so the claimed no-op short-circuit does not hold
for this callback. -/
theorem session_admin_down_noop_not_shortcircuited :
    sessSample.peer_profile.admin_shutdown = false
  ∧ (bfdd_bfd_sessions_single_hop_administrative_down_modify NbEvent.apply sessSample false).2.2 = 1 :=
  ⟨rfl, rfl⟩

/-- C5 (amended): the three single-hop interval modify callbacks
short-circuit at APPLY when the new value equals the installed timers
value for that field (success, session unchanged, no bfd_session_apply
call) and otherwise write peer_profile and call bfd_session_apply exactly
once; the detection-multiplier, administrative-down, passive-mode and
echo-mode callbacks write peer_profile and call bfd_session_apply
unconditionally. -/
theorem session_scalar_noop_spec (bs : BfdSession) (n : Nat) (b : Bool) :
    (bfdd_bfd_sessions_single_hop_desired_transmission_interval_modify NbEvent.apply bs n
      = if n = bs.timers.desired_min_tx then (NbRes.ok, bs, 0)
        else (NbRes.ok, { bs with peer_profile := { bs.peer_profile with min_tx := n } }, 1))
  ∧ (bfdd_bfd_sessions_single_hop_required_receive_interval_modify NbEvent.apply bs n
      = if n = bs.timers.required_min_rx then (NbRes.ok, bs, 0)
        else (NbRes.ok, { bs with peer_profile := { bs.peer_profile with min_rx := n } }, 1))
  ∧ (bfdd_bfd_sessions_single_hop_desired_echo_transmission_interval_modify NbEvent.apply bs n
      = if n = bs.timers.required_min_echo then (NbRes.ok, bs, 0)
        else (NbRes.ok, { bs with peer_profile := { bs.peer_profile with min_echo_rx := n } }, 1))
  ∧ (bfdd_bfd_sessions_single_hop_detection_multiplier_modify NbEvent.apply bs n
      = (NbRes.ok, { bs with peer_profile := { bs.peer_profile with detection_multiplier := n } }, 1))
  ∧ (bfdd_bfd_sessions_single_hop_administrative_down_modify NbEvent.apply bs b
      = (NbRes.ok, { bs with peer_profile := { bs.peer_profile with admin_shutdown := b } }, 1))
  ∧ (bfdd_bfd_sessions_single_hop_passive_mode_modify NbEvent.apply bs b
      = (NbRes.ok, { bs with peer_profile := { bs.peer_profile with passive := b } }, 1))
  ∧ (bfdd_bfd_sessions_single_hop_echo_mode_modify NbEvent.apply bs b
      = (NbRes.ok, { bs with peer_profile := { bs.peer_profile with echo_mode := b } }, 1)) := by
  refine ⟨?_, ?_, ?_, ?_, ?_, ?_, ?_⟩ <;>
    simp [bfdd_bfd_sessions_single_hop_desired_transmission_interval_modify,
          bfdd_bfd_sessions_single_hop_required_receive_interval_modify,
          bfdd_bfd_sessions_single_hop_desired_echo_transmission_interval_modify,
          bfdd_bfd_sessions_single_hop_detection_multiplier_modify,
          bfdd_bfd_sessions_single_hop_administrative_down_modify,
          bfdd_bfd_sessions_single_hop_passive_mode_modify,
          bfdd_bfd_sessions_single_hop_echo_mode_modify]

/-- C8: session-create VALIDATE rejects an IPv6 link-local destination
combined with the wildcard interface "*" with the link-local errmsg, and a
node whose interface is not the wildcard never fails this check. -/
theorem linklocal_validation_spec (mhop : Bool) (dnode : SessionDnode)
    (sessList : List SessionDnode) :
    (dnode.destAddr.family = Family.ipv6 → in6IsLinklocal dnode.destAddr = true →
     dnode.ifname = "*" →
       bfd_session_create_validate mhop dnode sessList = NbRes.errValidation linklocalErrmsg)
  ∧ (dnode.ifname ≠ "*" →
       bfd_session_create_validate mhop dnode sessList ≠ NbRes.errValidation linklocalErrmsg) := by
  constructor
  · intro h1 h2 h3
    simp only [bfd_session_create_validate]
    rw [if_pos ⟨h1, h2, h3⟩]
  · intro hif
    simp only [bfd_session_create_validate]
    rw [if_neg (fun hcond => hif hcond.2.2)]
    split
    · intro hEq
      have hmsg : wildcardErrmsg = linklocalErrmsg := by injection hEq
      exact absurd hmsg (by decide)
    · intro hEq
      exact NbRes.noConfusion hEq

/-- C8 witness: the link-local peer fe80::1 with interface "*" is rejected
with the link-local errmsg, and with interface eth0 it passes this check. -/
theorem linklocal_validation_spec_witness :
    bfd_session_create_validate false dnodeLinklocalWild [dnodeLinklocalWild]
      = NbRes.errValidation linklocalErrmsg
  ∧ bfd_session_create_validate false dnodeLinklocalEth [dnodeLinklocalEth]
      ≠ NbRes.errValidation linklocalErrmsg :=
  ⟨(linklocal_validation_spec false dnodeLinklocalWild [dnodeLinklocalWild]).1
      (by decide) (by decide) (by decide),
   (linklocal_validation_spec false dnodeLinklocalEth [dnodeLinklocalEth]).2 (by decide)⟩

/-- C7: when the link-local check passes, session-create VALIDATE fails
with the wildcard errmsg exactly when some sibling sharing the xpath
triple has interface "*" and more than one sibling shares it, and
succeeds otherwise (in particular a single wildcard entry is accepted). -/
theorem wildcard_ambiguity_validation_spec (mhop : Bool) (dnode : SessionDnode)
    (sessList : List SessionDnode)
    (hll : ¬ (dnode.destAddr.family = Family.ipv6 ∧ in6IsLinklocal dnode.destAddr = true
              ∧ dnode.ifname = "*")) :
    (bfd_session_create_validate mhop dnode sessList = NbRes.errValidation wildcardErrmsg
      ↔ ((sessList.filter (sessionMatches mhop dnode)).any (fun d => decide (d.ifname = "*")) = true
         ∧ 1 < (sessList.filter (sessionMatches mhop dnode)).length))
  ∧ (¬ ((sessList.filter (sessionMatches mhop dnode)).any (fun d => decide (d.ifname = "*")) = true
        ∧ 1 < (sessList.filter (sessionMatches mhop dnode)).length)
      → bfd_session_create_validate mhop dnode sessList = NbRes.ok) := by
  have hc := session_iter_run_count (sessList.filter (sessionMatches mhop dnode))
      { count := 0, wildcard := false }
  have hw := session_iter_run_wildcard (sessList.filter (sessionMatches mhop dnode))
      { count := 0, wildcard := false }
  simp only [Nat.zero_add, Bool.false_or] at hc hw
  simp only [bfd_session_create_validate]
  rw [if_neg hll]
  by_cases hcond : ((sessList.filter (sessionMatches mhop dnode)).any (fun d => decide (d.ifname = "*")) = true
      ∧ 1 < (sessList.filter (sessionMatches mhop dnode)).length)
  · rw [if_pos (by rw [hw, hc]; exact hcond)]
    exact ⟨⟨fun _ => hcond, fun _ => rfl⟩, fun hn => absurd hcond hn⟩
  · rw [if_neg (by rw [hw, hc]; exact hcond)]
    constructor
    · constructor
      · intro hEq
        exact absurd hEq (by simp)
      · intro hx
        exact absurd hx hcond
    · intro _
      rfl

/-- C7 witness: configuring peer 10.0.0.1 both with interface "*" and with
interface eth0 is rejected with the wildcard errmsg, while a single
wildcard entry passes VALIDATE. -/
theorem wildcard_ambiguity_validation_spec_witness :
    bfd_session_create_validate false dnodeWild [dnodeWild, dnodeEth]
      = NbRes.errValidation wildcardErrmsg
  ∧ bfd_session_create_validate false dnodeWild [dnodeWild] = NbRes.ok :=
  ⟨(wildcard_ambiguity_validation_spec false dnodeWild [dnodeWild, dnodeEth]
      (by decide)).1.mpr (by decide),
   (wildcard_ambiguity_validation_spec false dnodeWild [dnodeWild]
      (by decide)).2 (by decide)⟩

/-- C2: session-create PREPARE adopts or allocates.  When the canonical
key resolves to an existing session, PREPARE sets its CONFIG flag,
increments its refcount by exactly one, records it as the change's
resource and allocates nothing (every other heap object, the registry,
the running map and the allocator are untouched).  When the lookup fails,
PREPARE allocates a fresh session with refcount 1, flags CONFIG, MH
exactly when multihop is requested and IPV6 exactly when the key family
is IPv6, records it as the resource, and touches nothing else. -/
theorem bfd_session_create_prepare_spec (mhop : Bool) (dnode : SessionDnode)
    (st : Store) (id : Nat) (bs : BfdSession) :
    (bfd_key_lookup st (bfd_session_get_key mhop dnode) = some id →
     heapGet st.heap id = some bs →
       (bfd_session_create_prepare mhop dnode st).2 = id
       ∧ heapGet (bfd_session_create_prepare mhop dnode st).1.heap id
           = some { bs with flagConfig := true, refcount := bs.refcount + 1 }
       ∧ (∀ j, j ≠ id →
           heapGet (bfd_session_create_prepare mhop dnode st).1.heap j = heapGet st.heap j)
       ∧ (bfd_session_create_prepare mhop dnode st).1.heap.length = st.heap.length
       ∧ (bfd_session_create_prepare mhop dnode st).1.registry = st.registry
       ∧ (bfd_session_create_prepare mhop dnode st).1.running = st.running
       ∧ (bfd_session_create_prepare mhop dnode st).1.nextId = st.nextId)
  ∧ (bfd_key_lookup st (bfd_session_get_key mhop dnode) = none →
       (bfd_session_create_prepare mhop dnode st).2 = st.nextId
       ∧ heapGet (bfd_session_create_prepare mhop dnode st).1.heap st.nextId
           = some { bfd_session_new with
                      key := bfd_session_get_key mhop dnode
                      refcount := 1
                      flagConfig := true
                      flagMH := mhop
                      flagIPv6 := decide ((bfd_session_get_key mhop dnode).family = Family.ipv6) }
       ∧ (∀ j, j ≠ st.nextId →
           heapGet (bfd_session_create_prepare mhop dnode st).1.heap j = heapGet st.heap j)
       ∧ (bfd_session_create_prepare mhop dnode st).1.registry = st.registry
       ∧ (bfd_session_create_prepare mhop dnode st).1.running = st.running) := by
  constructor
  · intro h1 h2
    simp only [bfd_session_create_prepare, h1, h2]
    refine ⟨trivial, ?_, ?_, ?_, trivial, trivial, trivial⟩
    · exact heapGet_heapSet_self st.heap id _ bs h2
    · intro j hj
      exact heapGet_heapSet_ne st.heap id j _ hj
    · exact heapSet_length st.heap id _
  · intro h1
    simp only [bfd_session_create_prepare, h1]
    refine ⟨trivial, ?_, ?_, trivial, trivial⟩
    · simp [heapGet]
    · intro j hj
      simp only [heapGet]
      rw [if_neg (fun hh : st.nextId = j => hj hh.symm)]

/-- C2 witness: adopting the engine-owned sess0 in store0 bumps its
refcount and sets CONFIG, and a create in the empty store allocates a
fresh CONFIG session with refcount 1 recorded as the resource. -/
theorem bfd_session_create_prepare_spec_witness :
    heapGet (bfd_session_create_prepare false dnodeWild store0).1.heap 0
      = some { sess0 with flagConfig := true, refcount := sess0.refcount + 1 }
  ∧ (bfd_session_create_prepare false dnodeWild storeEmpty).2 = storeEmpty.nextId :=
  ⟨((bfd_session_create_prepare_spec false dnodeWild store0 0 sess0).1
      (by decide) (by decide)).2.1,
   ((bfd_session_create_prepare_spec false dnodeWild storeEmpty 0 sess0).2
      (by decide)).1⟩

/-- C9: session-create APPLY attempts engine registration exactly when the
resource session is freshly allocated (my_discr = 0): an adopted session
is never re-registered and the node is simply bound in the running map;
when registration is attempted and the engine refuses, the change fails
with NB_ERR_RESOURCE and the store is unchanged; on successful
registration the session gets its discriminator, is inserted in the
registry and the node is bound to it. -/
theorem bfd_session_create_apply_spec (node res d : Nat) (st : Store) (bs : BfdSession) :
    (heapGet st.heap res = some bs → bs.my_discr ≠ 0 →
       bfd_session_create_apply node res d st
         = (NbRes.ok, { st with running := (node, res) :: st.running }, 0))
  ∧ (heapGet st.heap res = some bs → bs.my_discr = 0 → d = 0 →
       bfd_session_create_apply node res d st = (NbRes.errResource, st, 1))
  ∧ (heapGet st.heap res = some bs → bs.my_discr = 0 → d ≠ 0 →
       bfd_session_create_apply node res d st
         = (NbRes.ok, { st with heap := heapSet st.heap res { bs with my_discr := d },
                                registry := (bs.key, res) :: st.registry,
                                running := (node, res) :: st.running }, 1)) := by
  refine ⟨?_, ?_, ?_⟩
  · intro hg hd
    simp [bfd_session_create_apply, hg, hd]
  · intro hg hd hd0
    simp [bfd_session_create_apply, hg, hd, bs_registrate, hd0]
  · intro hg hd hdne
    simp [bfd_session_create_apply, hg, hd, bs_registrate, hdne]

/-- C9 witness: applying the create of a freshly allocated session in a
concrete store registers it (discriminator 42, registry entry, running
binding) and reports one registration attempt. -/
theorem bfd_session_create_apply_spec_witness :
    bfd_session_create_apply 5 0 42 storeFresh
      = (NbRes.ok, { storeFresh with
                       heap := heapSet storeFresh.heap 0 { sessFresh with my_discr := 42 },
                       registry := (sessFresh.key, 0) :: storeFresh.registry,
                       running := (5, 0) :: storeFresh.running }, 1) :=
  (bfd_session_create_apply_spec 5 0 42 storeFresh sessFresh).2.2
    (by decide) (by decide) (by decide)

/-- C1 counterexample: store0 holds the engine-owned sess0 (refcount 1,
CONFIG clear).  PREPARE adopts it and a following ABORT leaves its
refcount at 2 with CONFIG set, so the pre-existing session, and hence the
overall state, is not as before the transaction. -/
theorem abort_after_adoption_not_state_restoring :
    heapGet (bfd_session_create_abort (bfd_session_create_prepare false dnodeWild store0).2
        (bfd_session_create_prepare false dnodeWild store0).1).heap 0
      = some { sess0 with flagConfig := true, refcount := 2 }
  ∧ ({ sess0 with flagConfig := true, refcount := 2 } : BfdSession) ≠ sess0
  ∧ bfd_session_create_abort (bfd_session_create_prepare false dnodeWild store0).2
        (bfd_session_create_prepare false dnodeWild store0).1 ≠ store0 :=
  ⟨by decide, by decide, by decide⟩

/-- C1 (amended): ABORT frees the resource session exactly when its
refcount is at most 1.  After a fresh allocation (lookup missed) the
abort of the prepared change restores the heap, registry and running map
exactly.  After an adoption (lookup hit, prior refcount at least 1) the
session is not freed and its refcount is never decremented, but the
CONFIG flag and the refcount increment from PREPARE persist, so the
pre-existing session is not restored to its prior state. -/
theorem bfd_session_create_abort_spec (mhop : Bool) (dnode : SessionDnode) (st : Store)
    (id : Nat) (bs : BfdSession) :
    (∀ st2 r bs2, heapGet st2.heap r = some bs2 →
        bfd_session_create_abort r st2
          = if bs2.refcount ≤ 1 then bfd_session_free st2 r else st2)
  ∧ (bfd_key_lookup st (bfd_session_get_key mhop dnode) = none →
     (∀ q ∈ st.registry, q.2 ≠ st.nextId) →
       (bfd_session_create_abort (bfd_session_create_prepare mhop dnode st).2
           (bfd_session_create_prepare mhop dnode st).1).heap = st.heap
       ∧ (bfd_session_create_abort (bfd_session_create_prepare mhop dnode st).2
           (bfd_session_create_prepare mhop dnode st).1).registry = st.registry
       ∧ (bfd_session_create_abort (bfd_session_create_prepare mhop dnode st).2
           (bfd_session_create_prepare mhop dnode st).1).running = st.running)
  ∧ (bfd_key_lookup st (bfd_session_get_key mhop dnode) = some id →
     heapGet st.heap id = some bs → 1 ≤ bs.refcount →
       bfd_session_create_abort (bfd_session_create_prepare mhop dnode st).2
           (bfd_session_create_prepare mhop dnode st).1
         = (bfd_session_create_prepare mhop dnode st).1
       ∧ heapGet (bfd_session_create_abort (bfd_session_create_prepare mhop dnode st).2
           (bfd_session_create_prepare mhop dnode st).1).heap id
         = some { bs with flagConfig := true, refcount := bs.refcount + 1 }) := by
  refine ⟨?_, ?_, ?_⟩
  · intro st2 r bs2 hg
    simp [bfd_session_create_abort, hg]
  · intro h1 hreg
    simp only [bfd_session_create_prepare, h1]
    simp [bfd_session_create_abort, heapGet, bfd_session_free, heapRemove,
          regRemoveId_of_absent st.registry st.nextId hreg]
  · intro h1 h2 hr
    have hg1 : heapGet (heapSet st.heap id { bs with flagConfig := true, refcount := bs.refcount + 1 }) id
        = some { bs with flagConfig := true, refcount := bs.refcount + 1 } :=
      heapGet_heapSet_self st.heap id _ bs h2
    have hnle : ¬ ({ bs with flagConfig := true, refcount := bs.refcount + 1 } : BfdSession).refcount ≤ 1 := by
      simp
      omega
    simp only [bfd_session_create_prepare, h1, h2]
    constructor
    · simp [bfd_session_create_abort, hg1, hnle]
    · simp [bfd_session_create_abort, hg1, hnle]

/-- C1 witness: aborting a fresh create in the empty store restores the
empty heap, and aborting the adoption of sess0 in store0 leaves sess0
with CONFIG set and refcount incremented. -/
theorem bfd_session_create_abort_spec_witness :
    (bfd_session_create_abort (bfd_session_create_prepare false dnodeWild storeEmpty).2
        (bfd_session_create_prepare false dnodeWild storeEmpty).1).heap = storeEmpty.heap
  ∧ heapGet (bfd_session_create_abort (bfd_session_create_prepare false dnodeWild store0).2
        (bfd_session_create_prepare false dnodeWild store0).1).heap 0
      = some { sess0 with flagConfig := true, refcount := sess0.refcount + 1 } :=
  ⟨((bfd_session_create_abort_spec false dnodeWild storeEmpty 0 sess0).2.1 (by decide)
      (by decide)).1,
   ((bfd_session_create_abort_spec false dnodeWild store0 0 sess0).2.2 (by decide)
      (by decide) (by decide)).2⟩

/-- C3: adopting an engine-owned session (CONFIG clear, refcount at least
1, registered so my_discr is nonzero) through a committed create and then
running the destroy APPLY on the same node restores the session exactly
(refcount back to its pre-adoption value, CONFIG cleared, session still
alive) and leaves registry, running map and allocator as before; and
whenever destroy APPLY runs on a session whose CONFIG flag is already
clear, the heap and registry are untouched (no decrement, nothing freed)
and only the node binding is removed. -/
theorem session_adopt_destroy_roundtrip (mhop : Bool) (dnode : SessionDnode) (st : Store)
    (node id d : Nat) (bs : BfdSession) :
    (bfd_key_lookup st (bfd_session_get_key mhop dnode) = some id →
     heapGet st.heap id = some bs →
     bs.flagConfig = false → 1 ≤ bs.refcount → bs.my_discr ≠ 0 →
       (createCommit mhop dnode node d st).1 = NbRes.ok
       ∧ heapGet (bfd_session_destroy_apply node (createCommit mhop dnode node d st).2).heap id
           = some bs
       ∧ (∀ j, j ≠ id →
           heapGet (bfd_session_destroy_apply node (createCommit mhop dnode node d st).2).heap j
             = heapGet st.heap j)
       ∧ (bfd_session_destroy_apply node (createCommit mhop dnode node d st).2).registry
           = st.registry
       ∧ (bfd_session_destroy_apply node (createCommit mhop dnode node d st).2).running
           = st.running
       ∧ (bfd_session_destroy_apply node (createCommit mhop dnode node d st).2).nextId
           = st.nextId)
  ∧ (∀ st2 node2 id2 bs2, runLookup st2.running node2 = some id2 →
       heapGet st2.heap id2 = some bs2 → bs2.flagConfig = false →
         (bfd_session_destroy_apply node2 st2).heap = st2.heap
         ∧ (bfd_session_destroy_apply node2 st2).registry = st2.registry
         ∧ (bfd_session_destroy_apply node2 st2).running = runUnset st2.running node2) := by
  constructor
  · intro h1 h2 hc hr hd
    have hg1 : heapGet (heapSet st.heap id { bs with flagConfig := true, refcount := bs.refcount + 1 }) id
        = some { bs with flagConfig := true, refcount := bs.refcount + 1 } :=
      heapGet_heapSet_self st.heap id _ bs h2
    have hr0 : 0 < bs.refcount := hr
    have hback : ({ bs with flagConfig := false, refcount := bs.refcount } : BfdSession) = bs := by
      obtain ⟨k, f, fm, f6, rc, dis, pp, tm⟩ := bs
      simp only at hc
      subst hc
      rfl
    have hcommit : createCommit mhop dnode node d st
        = (NbRes.ok, { st with heap := heapSet st.heap id { bs with flagConfig := true, refcount := bs.refcount + 1 },
                               running := (node, id) :: st.running }) := by
      simp only [createCommit, bfd_session_create_prepare, h1, h2]
      simp [bfd_session_create_apply, hg1, hd]
    have hdest : bfd_session_destroy_apply node
        { st with heap := heapSet st.heap id { bs with flagConfig := true, refcount := bs.refcount + 1 },
                  running := (node, id) :: st.running }
        = { st with heap := heapSet (heapSet st.heap id { bs with flagConfig := true, refcount := bs.refcount + 1 }) id bs } := by
      simp [bfd_session_destroy_apply, runLookup, runUnset, hg1, hback, hr0]
    simp only [hcommit, hdest]
    refine ⟨trivial, ?_, ?_, trivial, trivial, trivial⟩
    · exact heapGet_heapSet_self _ id bs _ hg1
    · intro j hj
      rw [heapGet_heapSet_ne _ id j bs hj, heapGet_heapSet_ne _ id j _ hj]
  · intro st2 node2 id2 bs2 hrl hg2 hc2
    simp only [bfd_session_destroy_apply, hrl]
    simp [hg2, hc2]

/-- C3 witness: committing a create that adopts the engine-owned sess0 and
then running the destroy APPLY on the same node returns sess0 to exactly
its pre-adoption state, still alive. -/
theorem session_adopt_destroy_roundtrip_witness :
    (createCommit false dnodeWild 5 9 store0).1 = NbRes.ok
  ∧ heapGet (bfd_session_destroy_apply 5 (createCommit false dnodeWild 5 9 store0).2).heap 0
      = some sess0 :=
  have h := (session_adopt_destroy_roundtrip false dnodeWild store0 5 0 9 sess0).1
    (by decide) (by decide) (by decide) (by decide) (by decide)
  ⟨h.1, h.2.1⟩
